import Mathlib

/-
A verification development for the larynx text-to-speech pipeline.

The embedding covers the pipeline orchestration in
src/larynx_runtime/__init__.py (text_to_speech, load_tts_model,
load_vocoder_model) and the phoneme-map closure in src/larynx/__main__.py.
The external collaborators (gruut tokenizer/phonemizer, gruut_ipa marker
constants, onnxruntime sessions, the neural models) are represented by
their outputs or by opaque function parameters; the logic of the repository
itself is translated line by line.
-/

namespace gruut_ipa

/-- Modelled from the external gruut_ipa library: `IPA.BREAK_MAJOR.value`,
the major-break symbol "‖" (U+2016). -/
def BREAK_MAJOR : String := "‖"

/-- Modelled from the external gruut_ipa library: `IPA.is_stress` holds
exactly of the primary (ˈ, U+02C8) and secondary (ˌ, U+02CC) stress
characters. -/
def is_stress (c : Char) : Bool := c == 'ˈ' || c == 'ˌ'

end gruut_ipa

namespace larynx_runtime

/-- One candidate pronunciation of a word: an ordered list of phoneme
symbol strings, as returned by the external gruut phonemizer. -/
abbrev Pron := List String

/-- The phonemizer's output for one word: its ranked candidate
pronunciations. -/
abbrev WordProns := List Pron

/-- Lines 73-82 of src/larynx_runtime/__init__.py, the per-phoneme body of
the first-pronunciation loop: an empty phoneme string is skipped
(`if not phoneme: continue`); otherwise, when the first character is a
stress marker, that character is emitted as its own symbol followed by the
remainder of the string; otherwise the phoneme is emitted unchanged. -/
def stress_split (phoneme : String) : List String :=
  match phoneme.toList with
  | [] => []
  | c :: rest =>
    if gruut_ipa.is_stress c then [String.mk [c], String.mk rest]
    else [phoneme]

/-- Lines 70-82: build `first_pron` for one sentence by walking the words
in order, taking each word's first candidate pronunciation
(`word_prons[0]`, words with no pronunciations are skipped) and appending
each phoneme's symbols to the accumulator. -/
def first_pron (sentence_prons : List WordProns) : List String :=
  sentence_prons.foldl
    (fun acc word_prons =>
      match word_prons with
      | [] => acc
      | pron0 :: _ => pron0.foldl (fun a phoneme => a ++ stress_split phoneme) acc)
    []

/-- The symbols one word contributes to `first_pron`: nothing when it has
no pronunciations, otherwise the stress-split flattening of its first
pronunciation.  (`first_pron_eq_join` proves the loop builds exactly the
concatenation of these blocks.) -/
def word_symbols (word_prons : WordProns) : List String :=
  match word_prons with
  | [] => []
  | pron0 :: _ => (pron0.map stress_split).flatten

/-- Lines 84-94: a sentence whose `first_pron` is empty is skipped
(`continue`, contributing nothing); otherwise a major break is appended
when the last phoneme is not already one, then a second major break is
appended unconditionally, and the result is extended onto the utterance's
phoneme list. -/
def sentence_phonemes (sentence_prons : List WordProns) : List String :=
  let fp := first_pron sentence_prons
  if fp = [] then []
  else
    let fp2 :=
      if fp.getLast? ≠ some gruut_ipa.BREAK_MAJOR
      then fp ++ [gruut_ipa.BREAK_MAJOR]
      else fp
    fp2 ++ [gruut_ipa.BREAK_MAJOR]

/-- Lines 58-94: `text_phonemes`, the utterance-level phoneme list built by
extending each sentence's contribution in order. -/
def text_phonemes (sentences : List (List WordProns)) : List String :=
  sentences.foldl (fun acc sentence_prons => acc ++ sentence_phonemes sentence_prons) []

/-- A Python dict from phoneme symbol to id, as its insertion sequence: a
later binding of the same key overwrites an earlier one, so lookup reads
the latest binding. -/
abbrev PhonemeDict := List (String × Nat)

/-- Line 45: `{p: i for i, p in enumerate(phonemes_list)}` — the binding
sequence pairs each symbol with its list position; a duplicated symbol's
later binding overwrites the earlier one. -/
def dict_of_enum (phonemes_list : List String) : PhonemeDict :=
  phonemes_list.enum.map (fun ip => (ip.2, ip.1))

/-- Python `d[k]`: the value of the latest binding of `k`; a missing key
raises KeyError, modelled as `none`. -/
def dict_get (d : PhonemeDict) (k : String) : Option Nat :=
  (d.reverse.find? (fun e => e.1 == k)).map (fun e => e.2)

/-- The gruut language object as `text_to_speech` uses it: the ordered
phoneme inventory (`id_to_phonemes()`) and the dynamically attached
`phoneme_to_id` cache attribute (`getattr`/`setattr`, lines 42-48);
`none` models the attribute being absent. -/
structure Language where
  id_to_phonemes : List String
  phoneme_to_id : Option PhonemeDict
deriving DecidableEq

/-- Lines 42-48: read the cached `phoneme_to_id` attribute; when absent,
derive the mapping from the ordered inventory by enumeration and attach it
to the language object.  Returns the mapping together with the (possibly
updated) language object. -/
def get_phoneme_to_id (gruut_lang : Language) : PhonemeDict × Language :=
  match gruut_lang.phoneme_to_id with
  | some d => (d, gruut_lang)
  | none =>
    let d := dict_of_enum gruut_lang.id_to_phonemes
    (d, { gruut_lang with phoneme_to_id := some d })

/-- Line 100: `[phoneme_to_id[p] for p in text_phonemes]` — the
comprehension evaluates left to right and a missing key raises KeyError at
the first absent symbol (`none`); otherwise every symbol's id is collected
in order. -/
def phoneme_ids (d : PhonemeDict) : List String → Option (List Nat)
  | [] => some []
  | p :: ps =>
    match dict_get d p with
    | none => none
    | some i => (phoneme_ids d ps).map (fun ids => i :: ids)

/-- A mel spectrogram tensor; opaque to the orchestrator, which only hands
it from the text-to-mel model to the vocoder. -/
abbrev Mels := List (List Int)

/-- What `text_to_speech` computes: the source returns only the audio
array; `real_time_factor` is the derived diagnostic of lines 123-132 (it
is logged, never returned), and `updated_lang` is the language object
after the `setattr` of line 48. -/
structure TTSResult where
  audio : List Int
  real_time_factor : ℚ
  updated_lang : Language
deriving DecidableEq

/-- Lines 28-134: the pipeline orchestrator.  The external tokenizer and
phonemizer are represented by their output `sentences` (per sentence, the
per-word candidate pronunciations); the two models are opaque functions
(`tts_model.phonemes_to_mels`, `vocoder_model.mels_to_audio`); the
`perf_counter` clock readings `tts_start_time` and `vocoder_end_time` are
inputs (the two other readings of lines 106/113 feed only debug logs).
The whole utterance's phonemes are encoded as one id sequence, one mel
inference and one vocoder inference are run over it, the real-time factor
is derived from the audio length, the sample rate and the two clock
readings, and the single audio array is returned. -/
def text_to_speech (gruut_lang : Language) (sentences : List (List WordProns))
    (tts_model : List Nat → Mels) (vocoder_model : Mels → List Int)
    (sample_rate : ℕ) (tts_start_time vocoder_end_time : ℚ) :
    Option TTSResult :=
  let pr := get_phoneme_to_id gruut_lang
  let phones := text_phonemes sentences
  match phoneme_ids pr.1 phones with
  | none => none
  | some ids =>
    let mels := tts_model ids
    let audio := vocoder_model mels
    let audio_duration_sec : ℚ := (audio.length : ℚ) / (sample_rate : ℚ)
    let infer_sec : ℚ := vocoder_end_time - tts_start_time
    let rtf := audio_duration_sec / infer_sec
    some { audio := audio, real_time_factor := rtf, updated_lang := pr.2 }

/-- The model-type tags of `.constants` (the constants module is not among
the staged files; membership and `.value` strings follow from their uses in
src/larynx_runtime/__init__.py and src/larynx/__main__.py). -/
inductive TextToSpeechType
  | TACOTRON2
  | GLOW_TTS
deriving DecidableEq

/-- The vocoder-type tags of `.constants` (same provenance as
`TextToSpeechType`). -/
inductive VocoderType
  | GRIFFIN_LIM
  | HIFI_GAN
  | WAVEGLOW
deriving DecidableEq

/-- `.value` of a `TextToSpeechType` member, as src/larynx/__main__.py uses
them for argument names. -/
def tts_type_value : TextToSpeechType → String
  | TextToSpeechType.TACOTRON2 => "tacotron2"
  | TextToSpeechType.GLOW_TTS => "glow_tts"

/-- `.value` of a `VocoderType` member. -/
def vocoder_type_value : VocoderType → String
  | VocoderType.GRIFFIN_LIM => "griffin_lim"
  | VocoderType.HIFI_GAN => "hifi_gan"
  | VocoderType.WAVEGLOW => "waveglow"

/-- onnxruntime graph optimization levels as the loaders use them. -/
inductive GraphOptimizationLevel
  | ORT_ENABLE_ALL
  | ORT_DISABLE_ALL
deriving DecidableEq

/-- An onnxruntime session-options object; only the graph optimization
level is ever set. -/
structure SessionOptions where
  graph_optimization_level : GraphOptimizationLevel
deriving DecidableEq

/-- A stage model config (`TextToSpeechModelConfig` / `VocoderModelConfig`
share this shape): the model path and the session options. -/
structure ModelConfig where
  model_path : String
  session_options : SessionOptions
deriving DecidableEq

/-- Lines 145-153 and 171-179: `onnxruntime.SessionOptions()` defaults to
optimizations enabled; `no_optimizations` sets `ORT_DISABLE_ALL`; the
config wraps the path and the options. -/
def make_config (model_path : String) (no_optimizations : Bool) : ModelConfig :=
  { model_path := model_path
    session_options :=
      { graph_optimization_level :=
          if no_optimizations then GraphOptimizationLevel.ORT_DISABLE_ALL
          else GraphOptimizationLevel.ORT_ENABLE_ALL } }

/-- The text-to-mel stage handles `load_tts_model` can construct. -/
inductive TextToSpeechModel
  | Tacotron2TextToSpeech (config : ModelConfig)
deriving DecidableEq

/-- The vocoder stage handles `load_vocoder_model` can construct. -/
inductive VocoderModel
  | GriffinLimVocoder (config : ModelConfig)
  | HiFiGanVocoder (config : ModelConfig)
deriving DecidableEq

/-- Lines 140-160: dispatch on the model type; only the Tacotron2 tag has
a constructor, any other tag raises ValueError. -/
def load_tts_model (model_type : TextToSpeechType) (model_path : String)
    (no_optimizations : Bool) : Except String TextToSpeechModel :=
  let config := make_config model_path no_optimizations
  match model_type with
  | TextToSpeechType.TACOTRON2 =>
    Except.ok (TextToSpeechModel.Tacotron2TextToSpeech config)
  | _ =>
    Except.error ("Unknown text to speech model type: " ++ tts_type_value model_type)

/-- Lines 166-191: dispatch on the vocoder type; the Griffin-Lim and
HiFi-GAN tags have constructors, any other tag raises ValueError. -/
def load_vocoder_model (model_type : VocoderType) (model_path : String)
    (no_optimizations : Bool) : Except String VocoderModel :=
  let config := make_config model_path no_optimizations
  match model_type with
  | VocoderType.GRIFFIN_LIM => Except.ok (VocoderModel.GriffinLimVocoder config)
  | VocoderType.HIFI_GAN => Except.ok (VocoderModel.HiFiGanVocoder config)
  | _ => Except.error ("Unknown vocoder model type: " ++ vocoder_type_value model_type)

end larynx_runtime

namespace larynx_main

/-- A phoneme-map value: `str` or `list[str]`
(`typing.Dict[str, typing.Union[str, typing.List[str]]]`,
src/larynx/__main__.py line 94). -/
abbrev MapValue := String ⊕ List String

/-- Python `m.get(k, default)`: the latest binding of `k`, or the default
when `k` is absent. -/
def dict_get_or (m : List (String × MapValue)) (k : String) (default : MapValue) :
    MapValue :=
  match m.reverse.find? (fun e => e.1 == k) with
  | some e => e.2
  | none => default

/-- src/larynx/__main__.py lines 122-123: the closure's whole body is the
bare expression statement `phoneme_map.get(p, p)` with no `return`, so the
Python function evaluates the lookup, discards it, falls through, and
returns None for every argument. -/
def phoneme_map_transform (phoneme_map : List (String × MapValue)) (p : String) :
    Option MapValue :=
  let _lookup := dict_get_or phoneme_map p (Sum.inl p)
  none

/-- Modelled from the spec: the transform the spec describes for the
phoneme-map remap — the mapped value when `p` is a key of the map, and the
identity value `p` itself when it is not (this is also what the closure's
type annotation `Callable[[str], str]` and its dead
`phoneme_map.get(p, p)` expression evidently intend). -/
def phoneme_map_transform_spec (phoneme_map : List (String × MapValue)) (p : String) :
    MapValue :=
  dict_get_or phoneme_map p (Sum.inl p)

end larynx_main

namespace larynx_runtime

/-- Modelled from the spec: the per-sentence audio of one sentence, as the
orchestrator the spec describes would produce it — the sentence's own
phoneme sequence encoded and run through the two models by itself.  A
sentence whose phoneme sequence is empty is skipped (contributes no pair);
a lookup error propagates. -/
def sentence_pair (d : PhonemeDict) (tts_model : List Nat → Mels)
    (vocoder_model : Mels → List Int) (sentence : String × List WordProns) :
    Option (List (String × List Int)) :=
  let phones := sentence_phonemes sentence.2
  if phones = [] then some []
  else
    match phoneme_ids d phones with
    | none => none
    | some ids => some [(sentence.1, vocoder_model (tts_model ids))]

/-- Modelled from the spec: the lazy per-sentence orchestrator the spec
describes — "the orchestrator produces a lazy sequence of (text, audio)
pairs", one pair per non-skipped sentence, each sentence phonemized,
encoded and inferred independently and emitted in input order.  (The
finite sequence is materialized as the list of the pairs it would yield.) -/
def text_to_speech_pairs (gruut_lang : Language)
    (sentences : List (String × List WordProns))
    (tts_model : List Nat → Mels) (vocoder_model : Mels → List Int) :
    Option (List (String × List Int)) :=
  let pr := get_phoneme_to_id gruut_lang
  sentences.foldr
    (fun sentence acc =>
      match sentence_pair pr.1 tts_model vocoder_model sentence, acc with
      | some xs, some ys => some (xs ++ ys)
      | _, _ => none)
    (some [])

/-- A text-to-mel model that records how many phoneme ids one inference
call received: its "mel tensor" is the singleton frame holding the input
length.  Used to observe whether inference ran once over the whole
utterance or once per sentence. -/
def length_probe_tts (ids : List Nat) : Mels := [[(ids.length : Int)]]

/-- A vocoder that flattens the mel tensor into the waveform, exposing the
mel values as samples. -/
def flatten_vocoder (m : Mels) : List Int := m.flatten

/-- A language with the two-symbol inventory the concrete examples use. -/
def demo_lang : Language := { id_to_phonemes := ["a", "‖"], phoneme_to_id := none }

/-- A two-sentence utterance, each sentence one word with the single
pronunciation ["a"], as the phonemizer would hand it to the orchestrator. -/
def two_sentence_input : List (List WordProns) := [[[["a"]]], [[["a"]]]]

/-- The same two sentences with their text labels, for the per-sentence
orchestrator the spec describes. -/
def two_sentence_labeled : List (String × List WordProns) :=
  [("first sentence", [[["a"]]]), ("second sentence", [[["a"]]])]

/-- An identity-like text-to-mel model for the concrete witnesses: a single
mel row holding the phoneme ids themselves. -/
def id_tts_model (ids : List Nat) : Mels := [ids.map (fun i => (i : Int))]

end larynx_runtime

namespace larynx_runtime

theorem foldl_append_flatten {α β : Type*} (f : α → List β) :
    ∀ (l : List α) (init : List β),
      List.foldl (fun acc x => acc ++ f x) init l = init ++ (l.map f).flatten
  | [], init => by simp
  | x :: xs, init => by
    rw [List.foldl_cons, foldl_append_flatten f xs]
    simp [List.append_assoc]

theorem text_phonemes_eq_flatten (sentences : List (List WordProns)) :
    text_phonemes sentences = (sentences.map sentence_phonemes).flatten := by
  simpa using foldl_append_flatten sentence_phonemes sentences []

theorem sentence_phonemes_of_ne (sentence_prons : List WordProns)
    (h : first_pron sentence_prons ≠ []) :
    sentence_phonemes sentence_prons =
      (if (first_pron sentence_prons).getLast? ≠ some gruut_ipa.BREAK_MAJOR
       then first_pron sentence_prons ++ [gruut_ipa.BREAK_MAJOR]
       else first_pron sentence_prons) ++ [gruut_ipa.BREAK_MAJOR] := by
  simp only [sentence_phonemes]
  rw [if_neg h]

theorem text_to_speech_eq_map (gruut_lang : Language)
    (sentences : List (List WordProns)) (tts_model : List Nat → Mels)
    (vocoder_model : Mels → List Int) (sample_rate : ℕ)
    (tts_start_time vocoder_end_time : ℚ) :
    text_to_speech gruut_lang sentences tts_model vocoder_model sample_rate
        tts_start_time vocoder_end_time
      = (phoneme_ids (get_phoneme_to_id gruut_lang).1 (text_phonemes sentences)).map
          (fun ids =>
            { audio := vocoder_model (tts_model ids)
              real_time_factor :=
                ((vocoder_model (tts_model ids)).length : ℚ) / (sample_rate : ℚ)
                  / (vocoder_end_time - tts_start_time)
              updated_lang := (get_phoneme_to_id gruut_lang).2 }) := by
  cases h : phoneme_ids (get_phoneme_to_id gruut_lang).1 (text_phonemes sentences) <;>
    simp [text_to_speech, h]

theorem dict_of_enum_mem (l : List String) (e : String × Nat)
    (he : e ∈ dict_of_enum l) : l[e.2]? = some e.1 := by
  obtain ⟨⟨i, x⟩, hip, rfl⟩ := List.mem_map.mp he
  exact List.mk_mem_enum_iff_getElem?.mp hip

theorem dict_get_enum_of_mem (l : List String) (p : String) (hp : p ∈ l) :
    ∃ i, dict_get (dict_of_enum l) p = some i ∧ l[i]? = some p := by
  have hsome : ((dict_of_enum l).reverse.find? (fun e => e.1 == p)).isSome := by
    rw [List.find?_isSome]
    obtain ⟨i, hi⟩ := List.mem_iff_getElem?.mp hp
    refine ⟨(p, i), ?_, by simp⟩
    rw [List.mem_reverse]
    exact List.mem_map.mpr ⟨(i, p), List.mk_mem_enum_iff_getElem?.mpr hi, rfl⟩
  obtain ⟨e, he⟩ := Option.isSome_iff_exists.mp hsome
  have hmem : e ∈ dict_of_enum l := List.mem_reverse.mp (List.mem_of_find?_eq_some he)
  have hkey : e.1 = p := by simpa using List.find?_some he
  refine ⟨e.2, ?_, ?_⟩
  · simp [dict_get, he]
  · rw [dict_of_enum_mem l e hmem, hkey]

end larynx_runtime

namespace larynx_runtime

/-- C1: for every sentence whose selected pronunciation yields at least one
phoneme (first_pron nonempty), the phoneme sequence text_to_speech builds
for it ends with the major-break marker twice — one major break is appended
when the last phoneme is not already one, and a second unconditionally, so
the final two symbols are both the major-break marker. -/
theorem c1_sentence_ends_double_major_break (sentence_prons : List WordProns)
    (h : first_pron sentence_prons ≠ []) :
    ∃ l, sentence_phonemes sentence_prons
        = l ++ [gruut_ipa.BREAK_MAJOR, gruut_ipa.BREAK_MAJOR] := by
  rw [sentence_phonemes_of_ne sentence_prons h]
  by_cases hl : (first_pron sentence_prons).getLast? ≠ some gruut_ipa.BREAK_MAJOR
  · rw [if_pos hl]
    exact ⟨first_pron sentence_prons, by simp⟩
  · rw [if_neg hl]
    push_neg at hl
    have hd : (first_pron sentence_prons).dropLast ++ [gruut_ipa.BREAK_MAJOR]
        = first_pron sentence_prons :=
      List.dropLast_append_getLast? gruut_ipa.BREAK_MAJOR (by simp [hl, Option.mem_def])
    refine ⟨(first_pron sentence_prons).dropLast, ?_⟩
    conv_lhs => rw [← hd]
    rw [List.append_assoc]
    rfl

/-- Witness for C1 at the one-word sentence whose only pronunciation is
["a"]. -/
theorem c1_sentence_ends_double_major_break_witness :
    first_pron [[["a"]]] ≠ []
    ∧ ∃ l, sentence_phonemes [[["a"]]]
        = l ++ [gruut_ipa.BREAK_MAJOR, gruut_ipa.BREAK_MAJOR] :=
  ⟨by decide, c1_sentence_ends_double_major_break [[["a"]]] (by decide)⟩

/-- C8: a sentence whose selected pronunciation yields no phonemes is
skipped entirely — it contributes nothing to the utterance's phoneme
sequence — and a sentence that is not skipped never contributes an empty
phoneme sequence. -/
theorem c8_empty_sentences_skipped (sentence_prons : List WordProns) :
    (first_pron sentence_prons = [] →
      sentence_phonemes sentence_prons = []
      ∧ ∀ pre post : List (List WordProns),
          text_phonemes (pre ++ sentence_prons :: post) = text_phonemes (pre ++ post))
    ∧ (first_pron sentence_prons ≠ [] → sentence_phonemes sentence_prons ≠ []) := by
  constructor
  · intro h
    have he : sentence_phonemes sentence_prons = [] := by
      simp [sentence_phonemes, h]
    refine ⟨he, fun pre post => ?_⟩
    simp [text_phonemes_eq_flatten, he]
  · intro h
    rw [sentence_phonemes_of_ne sentence_prons h]
    simp

/-- Witness for C8: a sentence made of one word with no pronunciations is
dropped from the utterance phoneme sequence; a sentence with a real
pronunciation contributes a nonempty block. -/
theorem c8_empty_sentences_skipped_witness :
    (sentence_phonemes ([[]] : List WordProns) = []
      ∧ text_phonemes ([] ++ ([[]] : List WordProns) :: [[[["a"]]]])
          = text_phonemes ([] ++ [[[["a"]]]]))
    ∧ sentence_phonemes [[["a"]]] ≠ [] := by
  refine ⟨?_, (c8_empty_sentences_skipped [[["a"]]]).2 (by decide)⟩
  have h := (c8_empty_sentences_skipped ([[]] : List WordProns)).1 (by decide)
  exact ⟨h.1, h.2 [] [[[["a"]]]]⟩

/-- C10: a word pronunciation holding a phoneme that is only a stress
marker makes text_to_speech append the empty string as a symbol — the
`if not phoneme` filter runs before the stress split, so the split's empty
remainder is appended — and the empty string reaches the vocabulary lookup
(here: the encoder fails on a vocabulary that has every genuine symbol but
no empty-string entry). -/
theorem c10_empty_symbol_reaches_encoder :
    stress_split "ˈ" = ["ˈ", ""]
    ∧ "" ∈ sentence_phonemes [[["ˈ"]]]
    ∧ "" ∈ text_phonemes [[[["ˈ"]]]]
    ∧ phoneme_ids (dict_of_enum ["ˈ", "‖"]) (text_phonemes [[[["ˈ"]]]]) = none := by
  decide

end larynx_runtime

namespace larynx_main

/-- C3 (code bug): the phoneme_map_transform closure returns None for every
phoneme — its body evaluates `phoneme_map.get(p, p)` but never returns it —
while the spec-described (and evidently intended) transform returns the
mapped value for a key of the map and the identity value otherwise. -/
theorem c3_transform_always_none (phoneme_map : List (String × MapValue)) (p : String) :
    phoneme_map_transform phoneme_map p = none
    ∧ phoneme_map_transform_spec [("a", Sum.inl "b")] "a" = Sum.inl "b"
    ∧ phoneme_map_transform_spec [("a", Sum.inl "b")] "c" = Sum.inl "c" :=
  ⟨rfl, rfl, rfl⟩

end larynx_main

namespace larynx_runtime

/-- C2: encoding raises a lookup error (returns none) whenever some symbol
of the sequence is absent from the vocabulary — no default id is
substituted — and when every symbol is present it returns each symbol's own
id, with the output exactly as long as the input. -/
theorem c2_encoder_lookup (d : PhonemeDict) (syms : List String) :
    ((∃ p ∈ syms, dict_get d p = none) → phoneme_ids d syms = none)
    ∧ ((∀ p ∈ syms, (dict_get d p).isSome) →
        ∃ ids, phoneme_ids d syms = some ids
          ∧ ids.length = syms.length
          ∧ ∀ i (h1 : i < syms.length) (h2 : i < ids.length),
              dict_get d syms[i] = some ids[i]) := by
  induction syms with
  | nil =>
    refine ⟨?_, ?_⟩
    · rintro ⟨p, hp, -⟩
      cases hp
    · intro
      exact ⟨[], rfl, rfl, fun i h1 h2 => absurd h1 (by simp)⟩
  | cons p ps ih =>
    refine ⟨?_, ?_⟩
    · rintro ⟨q, hq, hnone⟩
      rcases List.mem_cons.mp hq with rfl | hq2
      · simp [phoneme_ids, hnone]
      · have h2 := ih.1 ⟨q, hq2, hnone⟩
        cases hdp : dict_get d p <;> simp [phoneme_ids, hdp, h2]
    · intro hall
      obtain ⟨i, hdp⟩ :=
        Option.isSome_iff_exists.mp (hall p (List.mem_cons_self p ps))
      obtain ⟨ids, hids, hlen, hcorr⟩ :=
        ih.2 (fun q hq => hall q (List.mem_cons_of_mem p hq))
      refine ⟨i :: ids, ?_, by simp [hlen], ?_⟩
      · simp [phoneme_ids, hdp, hids]
      · intro k h1 h2
        cases k with
        | zero => simpa using hdp
        | succ m =>
          have hm1 : m < ps.length := by simpa using h1
          have hm2 : m < ids.length := by simpa using h2
          simpa using hcorr m hm1 hm2

/-- Witness for C2: over the vocabulary built from ["a"], encoding a
sequence holding the unknown symbol "x" raises the lookup error, and
encoding ["a", "a"] returns the ids with the input's length. -/
theorem c2_encoder_lookup_witness :
    phoneme_ids (dict_of_enum ["a"]) ["a", "x"] = none
    ∧ ∃ ids, phoneme_ids (dict_of_enum ["a"]) ["a", "a"] = some ids
        ∧ ids.length = (["a", "a"] : List String).length
        ∧ ∀ i (h1 : i < (["a", "a"] : List String).length) (h2 : i < ids.length),
            dict_get (dict_of_enum ["a"]) (["a", "a"] : List String)[i] = some ids[i] := by
  refine ⟨?_, (c2_encoder_lookup (dict_of_enum ["a"]) ["a", "a"]).2 (by decide)⟩
  exact (c2_encoder_lookup (dict_of_enum ["a"]) ["a", "x"]).1 ⟨"x", by decide, by decide⟩

/-- C5: for a sequence of symbols each present in the language's phoneme
inventory, encoding through the vocabulary built from the inventory and
then decoding each id back through the inventory (indexed by id) recovers
the original symbol sequence exactly. -/
theorem c5_round_trip (inventory : List String) (syms : List String)
    (h : ∀ p ∈ syms, p ∈ inventory) :
    ∃ ids, phoneme_ids (dict_of_enum inventory) syms = some ids
      ∧ ids.map (fun i => inventory[i]?) = syms.map some := by
  induction syms with
  | nil => exact ⟨[], rfl, rfl⟩
  | cons p ps ih =>
    obtain ⟨ids, hids, hdec⟩ := ih (fun q hq => h q (List.mem_cons_of_mem p hq))
    obtain ⟨i, hget, hdeci⟩ :=
      dict_get_enum_of_mem inventory p (h p (List.mem_cons_self p ps))
    refine ⟨i :: ids, ?_, ?_⟩
    · simp [phoneme_ids, hget, hids]
    · simp [hdeci, hdec]

/-- Witness for C5 over the inventory ["a", "‖"] and the symbol sequence
["‖", "a", "‖"]. -/
theorem c5_round_trip_witness :
    ∃ ids, phoneme_ids (dict_of_enum ["a", "‖"]) ["‖", "a", "‖"] = some ids
      ∧ ids.map (fun i => (["a", "‖"] : List String)[i]?)
          = (["‖", "a", "‖"] : List String).map some :=
  c5_round_trip ["a", "‖"] ["‖", "a", "‖"] (by decide)

/-- C6: fetching the phoneme vocabulary twice for the same language yields
the identical mapping; the second fetch reuses the cached attribute and
changes nothing; the fetched mapping is cached on the language object; and
on first use (no cached attribute) it is derived from the ordered phoneme
inventory with ids assigned by list position. -/
theorem c6_vocab_built_once (gruut_lang : Language) :
    (get_phoneme_to_id (get_phoneme_to_id gruut_lang).2).1
        = (get_phoneme_to_id gruut_lang).1
    ∧ (get_phoneme_to_id (get_phoneme_to_id gruut_lang).2).2
        = (get_phoneme_to_id gruut_lang).2
    ∧ (get_phoneme_to_id gruut_lang).2.phoneme_to_id
        = some (get_phoneme_to_id gruut_lang).1
    ∧ (gruut_lang.phoneme_to_id = none →
        (get_phoneme_to_id gruut_lang).1 = dict_of_enum gruut_lang.id_to_phonemes) := by
  obtain ⟨inventory, cache⟩ := gruut_lang
  cases cache <;> simp [get_phoneme_to_id]

/-- Witness for C6 at the demo language, whose cache attribute is absent. -/
theorem c6_vocab_built_once_witness :
    demo_lang.phoneme_to_id = none
    ∧ (get_phoneme_to_id demo_lang).1 = dict_of_enum demo_lang.id_to_phonemes
    ∧ (get_phoneme_to_id (get_phoneme_to_id demo_lang).2).1
        = (get_phoneme_to_id demo_lang).1 :=
  ⟨rfl, (c6_vocab_built_once demo_lang).2.2.2 rfl, (c6_vocab_built_once demo_lang).1⟩

/-- C7: the loaders dispatch on the model-type tag — load_tts_model
constructs the Tacotron2 stage for the Tacotron2 tag and raises a
ValueError for every other tag; load_vocoder_model constructs the
Griffin-Lim or HiFi-GAN stage for those tags and raises a ValueError for
every other tag. -/
theorem c7_loader_dispatch (model_type : TextToSpeechType) (vtype : VocoderType)
    (model_path : String) (no_optimizations : Bool) :
    (model_type = TextToSpeechType.TACOTRON2 →
      load_tts_model model_type model_path no_optimizations
        = Except.ok (TextToSpeechModel.Tacotron2TextToSpeech
            (make_config model_path no_optimizations)))
    ∧ (model_type ≠ TextToSpeechType.TACOTRON2 →
        load_tts_model model_type model_path no_optimizations
          = Except.error
              ("Unknown text to speech model type: " ++ tts_type_value model_type))
    ∧ (vtype = VocoderType.GRIFFIN_LIM →
        load_vocoder_model vtype model_path no_optimizations
          = Except.ok (VocoderModel.GriffinLimVocoder
              (make_config model_path no_optimizations)))
    ∧ (vtype = VocoderType.HIFI_GAN →
        load_vocoder_model vtype model_path no_optimizations
          = Except.ok (VocoderModel.HiFiGanVocoder
              (make_config model_path no_optimizations)))
    ∧ (vtype ≠ VocoderType.GRIFFIN_LIM → vtype ≠ VocoderType.HIFI_GAN →
        load_vocoder_model vtype model_path no_optimizations
          = Except.error
              ("Unknown vocoder model type: " ++ vocoder_type_value vtype)) := by
  cases model_type <;> cases vtype <;>
    simp [load_tts_model, load_vocoder_model]

/-- Witness for C7 at the unknown-to-the-loaders tags GLOW_TTS and
WAVEGLOW (and at the known tag TACOTRON2). -/
theorem c7_loader_dispatch_witness :
    load_tts_model TextToSpeechType.GLOW_TTS "model" false
      = Except.error
          ("Unknown text to speech model type: "
            ++ tts_type_value TextToSpeechType.GLOW_TTS)
    ∧ load_vocoder_model VocoderType.WAVEGLOW "model" false
      = Except.error
          ("Unknown vocoder model type: " ++ vocoder_type_value VocoderType.WAVEGLOW)
    ∧ load_tts_model TextToSpeechType.TACOTRON2 "model" false
      = Except.ok (TextToSpeechModel.Tacotron2TextToSpeech (make_config "model" false)) := by
  have h := c7_loader_dispatch TextToSpeechType.GLOW_TTS VocoderType.WAVEGLOW "model" false
  have h2 := c7_loader_dispatch TextToSpeechType.TACOTRON2 VocoderType.WAVEGLOW "model" false
  exact ⟨h.2.1 (by decide), h.2.2.2.2 (by decide) (by decide), h2.1 rfl⟩

end larynx_runtime

namespace larynx_runtime

/-- C9: whenever text_to_speech returns a result with a non-empty waveform,
the sample rate is positive and the measured inference wall time
(vocoder_end_time - tts_start_time) is strictly positive, the real-time
factor it computes — audio duration in seconds divided by that wall time —
is strictly positive (and, being a rational, finite); and the returned
waveform does not depend on the clock readings the factor is computed
from. -/
theorem c9_rtf_positive_and_harmless (gruut_lang : Language)
    (sentences : List (List WordProns)) (tts_model : List Nat → Mels)
    (vocoder_model : Mels → List Int) (sample_rate : ℕ)
    (tts_start_time vocoder_end_time : ℚ) (r : TTSResult)
    (hres : text_to_speech gruut_lang sentences tts_model vocoder_model
        sample_rate tts_start_time vocoder_end_time = some r)
    (hne : r.audio ≠ [])
    (hrate : 0 < sample_rate)
    (htime : tts_start_time < vocoder_end_time) :
    0 < r.real_time_factor
    ∧ ∀ t0 t1 : ℚ,
        (text_to_speech gruut_lang sentences tts_model vocoder_model
            sample_rate t0 t1).map TTSResult.audio = some r.audio := by
  rw [text_to_speech_eq_map] at hres
  obtain ⟨ids, hids, hr⟩ := Option.map_eq_some'.mp hres
  subst hr
  constructor
  · have hlen : 0 < (vocoder_model (tts_model ids)).length :=
      List.length_pos.mpr (by simpa using hne)
    have hnum : (0 : ℚ) < ((vocoder_model (tts_model ids)).length : ℚ) / (sample_rate : ℚ) :=
      div_pos (by exact_mod_cast hlen) (by exact_mod_cast hrate)
    exact div_pos hnum (sub_pos.mpr htime)
  · intro t0 t1
    rw [text_to_speech_eq_map, hids]
    rfl

/-- Witness for C9 at the demo language, a one-sentence utterance, the
identity-like models, sample rate 22050 and clock readings 0 and 1; the
second conjunct re-runs the pipeline with clock readings 5 and 7. -/
theorem c9_rtf_positive_and_harmless_witness :
    0 < (TTSResult.mk [0, 1, 1] ((3 : ℚ) / 22050 / (1 - 0))
          (Language.mk ["a", "‖"] (some [("a", 0), ("‖", 1)]))).real_time_factor
    ∧ (text_to_speech demo_lang [[[["a"]]]] id_tts_model flatten_vocoder
          22050 5 7).map TTSResult.audio
      = some (TTSResult.mk [0, 1, 1] ((3 : ℚ) / 22050 / (1 - 0))
          (Language.mk ["a", "‖"] (some [("a", 0), ("‖", 1)]))).audio := by
  have h := c9_rtf_positive_and_harmless demo_lang [[[["a"]]]] id_tts_model
    flatten_vocoder 22050 0 1
    (TTSResult.mk [0, 1, 1] ((3 : ℚ) / 22050 / (1 - 0))
      (Language.mk ["a", "‖"] (some [("a", 0), ("‖", 1)])))
    (by rfl) (by decide) (by decide) (by decide)
  exact ⟨h.1, h.2 5 7⟩

/-- C4 counterexample: for the concrete two-sentence utterance, the code's
text_to_speech returns a single waveform produced by one inference over the
whole utterance's six phoneme ids (the probe model records the per-call
input length, here 6), while the per-sentence orchestrator the claim
describes yields two (text, audio) pairs whose waveforms each record a
3-id inference; the single returned waveform is not the per-sentence
sequence, nor even the concatenation of its audios. -/
theorem c4_lazy_pairs_counterexample :
    (text_to_speech demo_lang two_sentence_input length_probe_tts flatten_vocoder
        22050 0 1).map TTSResult.audio = some [6]
    ∧ text_to_speech_pairs demo_lang two_sentence_labeled length_probe_tts
        flatten_vocoder
      = some [("first sentence", [3]), ("second sentence", [3])]
    ∧ (some [6] : Option (List Int)) ≠ some ([3] ++ [3]) := by
  decide

/-- C4 amended: for every utterance, text_to_speech materializes all
sentences before returning — it concatenates the per-sentence phoneme
sequences (skipped sentences contributing nothing), encodes the whole
utterance as one id sequence, runs a single mel inference and a single
vocoder inference over it, and returns the one resulting waveform; no
per-sentence (text, audio) pairs are produced. -/
theorem c4_single_materialized_waveform (gruut_lang : Language)
    (sentences : List (List WordProns)) (tts_model : List Nat → Mels)
    (vocoder_model : Mels → List Int) (sample_rate : ℕ)
    (tts_start_time vocoder_end_time : ℚ) :
    (text_to_speech gruut_lang sentences tts_model vocoder_model sample_rate
        tts_start_time vocoder_end_time).map TTSResult.audio
      = (phoneme_ids (get_phoneme_to_id gruut_lang).1
            ((sentences.map sentence_phonemes).flatten)).map
          (fun ids => vocoder_model (tts_model ids)) := by
  rw [text_to_speech_eq_map, ← text_phonemes_eq_flatten]
  cases phoneme_ids (get_phoneme_to_id gruut_lang).1 (text_phonemes sentences) <;> rfl

end larynx_runtime
